import Mathlib

set_option autoImplicit false
set_option maxRecDepth 10000

/-!
Verification of the checkout order-validation and submission pipeline of the
kyriakoseshop storefront.

The development shallowly embeds the TypeScript sources:
  * `src/app/api/checkout/route.ts` — the POST /api/checkout handler: line-item
    validation, price snapshot, retry/backoff, order creation;
  * `src/lib/types.ts` (mirrored in `src/app/api/revalidate/route.ts`) — order
    status machine and status-history (de)serialization.

Conventions of the embedding:
  * network fetches are parameters (an environment assigns each line item its
    backend fetch outcome), so the handler becomes a pure function;
  * JavaScript `Map` is an insertion-ordered association list with
    value-overwriting `set`;
  * decimal price strings are represented by their exact rational value, and
    JavaScript's IEEE-754 double arithmetic is modelled exactly: a double is the
    dyadic rational obtained by rounding to 53 significant bits (round to
    nearest, ties to even), which is exact for the normal range the shop's
    prices live in;
  * `Math.random()` outputs are an environment-supplied stream of rationals.
-/

namespace KyriakosShop

/-! ## Order status machine (src/lib/types.ts) -/

/-- The `OrderStatus` enum of `src/lib/types.ts`. -/
inductive OrderStatus
  | pending
  | paid
  | failed
  | cancelled
  | refunded
  | fulfilled
  | completed
deriving DecidableEq, Repr, Fintype

open OrderStatus

/-- The `VALID_TRANSITIONS` record of `src/lib/types.ts`: the list of statuses
reachable in one step from each status. -/
def VALID_TRANSITIONS : OrderStatus → List OrderStatus
  | pending => [paid, failed, cancelled]
  | paid => [fulfilled, refunded, cancelled]
  | failed => [cancelled]
  | cancelled => [refunded]
  | refunded => []
  | fulfilled => [completed, refunded]
  | completed => []

/-- `isValidStatusTransition` of `src/lib/types.ts`:
`VALID_TRANSITIONS[fromStatus].includes(toStatus)`. -/
def isValidStatusTransition (fromStatus toStatus : OrderStatus) : Bool :=
  (VALID_TRANSITIONS fromStatus).contains toStatus

/-! ## Order status history (src/lib/types.ts)

`serializeStatusHistory` is `JSON.stringify` applied to the history array and
`deserializeStatusHistory` is a falsy-guard, `JSON.parse` in a try/catch, and an
`Array.isArray` check.  `JSON.stringify`/`JSON.parse` are platform built-ins
(exact inverses on this fragment of JSON), so the string layer is modelled at
its interface boundary: a serialized value is a JSON tree (`Json`), and a
`deserializeStatusHistory` input is either absent (`null`/`undefined`), the
empty string (falsy, rejected before parsing), a malformed string (on which
`JSON.parse` throws), or a well-formed string carrying its parsed JSON tree. -/

/-- The `actor` union type of `OrderStatusHistoryEntry` in `src/lib/types.ts`. -/
inductive Actor
  | system
  | customer
  | admin
  | payment_gateway
deriving DecidableEq, Repr

/-- `OrderStatusHistoryEntry` of `src/lib/types.ts`. -/
structure OrderStatusHistoryEntry where
  timestamp : String
  fromStatus : Option OrderStatus
  toStatus : OrderStatus
  reason : String
  actor : Actor
deriving DecidableEq, Repr

/-- A JSON value, as produced by `JSON.parse` (numbers restricted to the
integers, which is all this pipeline ever serializes). -/
inductive Json
  | null
  | bool (b : Bool)
  | num (n : Int)
  | str (s : String)
  | arr (elems : List Json)
  | obj (members : List (String × Json))

/-- The string value of an `OrderStatus` enum member (`src/lib/types.ts`). -/
def statusToString : OrderStatus → String
  | .pending => "pending"
  | .paid => "paid"
  | .failed => "failed"
  | .cancelled => "cancelled"
  | .refunded => "refunded"
  | .fulfilled => "fulfilled"
  | .completed => "completed"

/-- Read an `OrderStatus` back from its string value. -/
def statusFromString (s : String) : Option OrderStatus :=
  if s = "pending" then some .pending
  else if s = "paid" then some .paid
  else if s = "failed" then some .failed
  else if s = "cancelled" then some .cancelled
  else if s = "refunded" then some .refunded
  else if s = "fulfilled" then some .fulfilled
  else if s = "completed" then some .completed
  else none

/-- The string value of an `actor` union member. -/
def actorToString : Actor → String
  | .system => "system"
  | .customer => "customer"
  | .admin => "admin"
  | .payment_gateway => "payment_gateway"

/-- Read an `actor` back from its string value. -/
def actorFromString (s : String) : Option Actor :=
  if s = "system" then some .system
  else if s = "customer" then some .customer
  else if s = "admin" then some .admin
  else if s = "payment_gateway" then some .payment_gateway
  else none

/-- The JSON tree `JSON.stringify` serializes for one history entry: an object
whose members appear in property-creation order. -/
def encodeEntry (e : OrderStatusHistoryEntry) : Json :=
  Json.obj [
    ("timestamp", Json.str e.timestamp),
    ("fromStatus", match e.fromStatus with
      | none => Json.null
      | some s => Json.str (statusToString s)),
    ("toStatus", Json.str (statusToString e.toStatus)),
    ("reason", Json.str e.reason),
    ("actor", Json.str (actorToString e.actor))]

/-- Property lookup on a parsed JSON object. -/
def jsonObjGet : List (String × Json) → String → Option Json
  | [], _ => none
  | (k, v) :: rest, key => if k = key then some v else jsonObjGet rest key

/-- Read a parsed JSON element back at type `OrderStatusHistoryEntry`.  The
TypeScript source returns parsed elements under this type without any runtime
check (a cast); this decoder gives that cast its meaning, with inert defaults
off the image of `encodeEntry`. -/
def decodeEntry : Json → OrderStatusHistoryEntry
  | Json.obj fields =>
    { timestamp := match jsonObjGet fields "timestamp" with
        | some (Json.str s) => s
        | _ => ""
      fromStatus := match jsonObjGet fields "fromStatus" with
        | some (Json.str s) => statusFromString s
        | _ => none
      toStatus := match jsonObjGet fields "toStatus" with
        | some (Json.str s) => (statusFromString s).getD .pending
        | _ => .pending
      reason := match jsonObjGet fields "reason" with
        | some (Json.str s) => s
        | _ => ""
      actor := match jsonObjGet fields "actor" with
        | some (Json.str s) => (actorFromString s).getD .system
        | _ => .system }
  | _ =>
    { timestamp := ""
      fromStatus := none
      toStatus := .pending
      reason := ""
      actor := .system }

/-- A WooCommerce metadata string holding (possibly) serialized JSON, seen
through the `JSON.parse` interface: empty (falsy), malformed (`JSON.parse`
throws), or well-formed with its parse result. -/
inductive JsonText
  | empty
  | malformed
  | wellFormed (j : Json)

/-- `serializeStatusHistory` of `src/lib/types.ts`: `JSON.stringify(history)`,
a well-formed JSON text whose parse tree is the serialized array. -/
def serializeStatusHistory (history : List OrderStatusHistoryEntry) : JsonText :=
  JsonText.wellFormed (Json.arr (history.map encodeEntry))

/-- `deserializeStatusHistory` of `src/lib/types.ts`: `[]` on a falsy input
(`null`/`undefined`/empty string), `[]` when `JSON.parse` throws, the parsed
elements when the parse result is an array, and `[]` otherwise. -/
def deserializeStatusHistory : Option JsonText → List OrderStatusHistoryEntry
  | none => []
  | some JsonText.empty => []
  | some JsonText.malformed => []
  | some (JsonText.wellFormed j) =>
    match j with
    | Json.arr elems => elems.map decodeEntry
    | _ => []

/-! ## Retry/backoff executor (src/app/api/checkout/route.ts)

`withRetry` loops `attempt = 0 .. maxRetries`, awaiting the operation; on an
exception it classifies the error with `isTransientError`, rethrows fatal
errors at once, rethrows on the last attempt, and otherwise sleeps
`min(initialDelayMs * 2^attempt, maxDelayMs) + Math.random() * 50` milliseconds
and retries.  The embedding makes the operation a function of the attempt
number, makes the `Math.random()` stream a parameter, and records the attempts
made and the delays slept. -/

/-- A thrown JavaScript error as the retry code inspects it: an optional
`statusCode` field, an optional `response.status`, and an optional
WooCommerce `code` field. -/
structure JsError where
  message : String
  statusCode : Option Nat
  responseStatus : Option Nat
  code : Option String
deriving DecidableEq, Repr

/-- The `RETRY_CONFIG` constant of the checkout route. -/
structure RetryConfig where
  maxRetries : Nat
  initialDelayMs : ℚ
  maxDelayMs : ℚ

/-- `RETRY_CONFIG = { maxRetries: 2, initialDelayMs: 100, maxDelayMs: 1000 }`. -/
def RETRY_CONFIG : RetryConfig :=
  { maxRetries := 2, initialDelayMs := 100, maxDelayMs := 1000 }

/-- The `transientCodes` list inside `isTransientError`. -/
def transientCodes : List String :=
  ["woocommerce_rest_server_unavailable",
   "woocommerce_rest_authentication_error",
   "database_error",
   "object_lock_wait_timeout"]

/-- `isTransientError(statusCode, errorData)` of the checkout route. -/
def isTransientError (statusCode : Nat) (errorCode : Option String) : Bool :=
  if 500 ≤ statusCode then true
  else if statusCode = 429 then true
  else
    match errorCode with
    | some c => transientCodes.contains c
    | none => false

/-- The status code `withRetry` reads off a caught error:
`error.statusCode || error.response?.status || 500` (HTTP status codes are
never 0, so JavaScript falsiness coincides with absence). -/
def effStatusCode (e : JsError) : Nat :=
  (e.statusCode).getD ((e.responseStatus).getD 500)

/-- Result of a `withRetry` run: the value or the rethrown error, together
with the number of attempts made and the list of delays slept (ms). -/
inductive RetryOutcome (α : Type)
  | ok (value : α) (attempts : Nat) (delays : List ℚ)
  | failed (e : JsError) (attempts : Nat) (delays : List ℚ)

/-- The delays slept during a run. -/
def retryDelays {α : Type} : RetryOutcome α → List ℚ
  | RetryOutcome.ok _ _ ds => ds
  | RetryOutcome.failed _ _ ds => ds

/-- The number of attempts made during a run. -/
def retryAttempts {α : Type} : RetryOutcome α → Nat
  | RetryOutcome.ok _ n _ => n
  | RetryOutcome.failed _ n _ => n

/-- Record one slept delay in front of a run's delay list. -/
def retryCons {α : Type} (d : ℚ) : RetryOutcome α → RetryOutcome α
  | RetryOutcome.ok v n ds => RetryOutcome.ok v n (d :: ds)
  | RetryOutcome.failed e n ds => RetryOutcome.failed e n (d :: ds)

/-- The backoff delay before retrying attempt `attempt` (0-indexed):
`Math.min(RETRY_CONFIG.initialDelayMs * Math.pow(2, attempt), RETRY_CONFIG.maxDelayMs)`. -/
def backoffDelay (attempt : Nat) : ℚ :=
  min (RETRY_CONFIG.initialDelayMs * 2 ^ attempt) RETRY_CONFIG.maxDelayMs

/-- The `withRetry` loop body.  `remaining` counts the loop iterations left
(`maxRetries + 1 - attempt`), so `remaining = 1` exactly when
`attempt === RETRY_CONFIG.maxRetries`, the code's last-attempt check.  The
`remaining = 0` case is unreachable from `withRetry`. -/
def withRetryGo {α : Type} (op : Nat → Except JsError α) (rand : Nat → ℚ) :
    Nat → Nat → RetryOutcome α
  | 0, attempt => RetryOutcome.failed ⟨"", none, none, none⟩ attempt []
  | remaining + 1, attempt =>
    match op attempt with
    | Except.ok v => RetryOutcome.ok v (attempt + 1) []
    | Except.error e =>
      if isTransientError (effStatusCode e) e.code = false then
        RetryOutcome.failed e (attempt + 1) []
      else if remaining = 0 then
        RetryOutcome.failed e (attempt + 1) []
      else
        retryCons (backoffDelay attempt + rand attempt * 50)
          (withRetryGo op rand remaining (attempt + 1))

/-- `withRetry(operation, ...)` of the checkout route, starting at attempt 0
with `maxRetries + 1` loop iterations available. -/
def withRetry {α : Type} (op : Nat → Except JsError α) (rand : Nat → ℚ) :
    RetryOutcome α :=
  withRetryGo op rand (RETRY_CONFIG.maxRetries + 1) 0

/-! ## JavaScript number arithmetic, modelled exactly

`createPriceSnapshot` computes `parseFloat(product.price) * quantity` and a
running `subtotal +=` in JavaScript numbers, i.e. IEEE-754 binary64 doubles,
then formats with `.toFixed(2)`.  A binary64 double is a dyadic rational; for
the normal range that shop prices inhabit (magnitudes strictly between
`2^-200` and `2^200`, far inside binary64's normal range), conversion of an
exact rational to the nearest double is rounding to 53 significant bits, round
to nearest, ties to even.  The model below computes that rounding exactly over
integers: `Dy m e` denotes the dyadic rational `m * 2^e`. -/

/-- Fuel-driven floor of `log2` on naturals (`log2fuel f n` is exact for
`n < 2^f`); written with structural fuel so the kernel can evaluate it. -/
def log2fuel : Nat → Nat → Nat
  | 0, _ => 0
  | f + 1, n => if n < 2 then 0 else log2fuel f (n / 2) + 1

/-- Floor of `log2 (n / d)`, exact for `2^-200 < n/d < 2^200` with `n, d ≥ 1`. -/
def floorLog2Rat (n d : Nat) : Int :=
  (log2fuel 400 (n * 2 ^ 200 / d) : Int) - 200

/-- Round the rational `n / d` (`d ≥ 1`) to the nearest integer, ties to even. -/
def ratRoundHalfEven (n : Int) (d : Nat) : Int :=
  let q := Int.fdiv n d
  let r := n - q * d
  if 2 * r < d then q
  else if (d : Int) < 2 * r then q + 1
  else if q % 2 = 0 then q else q + 1

/-- Round the nonnegative rational `n / d` (`d ≥ 1`) to the nearest integer,
ties to the larger integer — the rounding `Number.prototype.toFixed` uses. -/
def ratRoundHalfUp (n : Int) (d : Nat) : Int :=
  let q := Int.fdiv n d
  let r := n - q * d
  if 2 * r < d then q else q + 1

/-- An exact dyadic rational `m * 2^e`: the value of a binary64 double. -/
structure Dy where
  m : Int
  e : Int
deriving DecidableEq, Repr

/-- Round the rational `n / d` to the nearest binary64 double (exact in the
normal range `2^-200 < |n/d| < 2^200`): scale to a 53-bit mantissa grid and
round to nearest, ties to even. -/
def roundDoubleRat (n : Int) (d : Nat) : Dy :=
  if n = 0 then ⟨0, 0⟩
  else
    let e := floorLog2Rat n.natAbs d
    let s := e - 52
    if s ≤ 0 then ⟨ratRoundHalfEven (n * 2 ^ (-s).toNat) d, s⟩
    else ⟨ratRoundHalfEven n (d * 2 ^ s.toNat), s⟩

/-- Round an exact dyadic value `m * 2^e` back to the nearest double. -/
def dyRound (m : Int) (e : Int) : Dy :=
  if 0 ≤ e then roundDoubleRat (m * 2 ^ e.toNat) 1
  else roundDoubleRat m (2 ^ (-e).toNat)

/-- JavaScript `*` on doubles: the exact product, correctly rounded. -/
def jsMul (a b : Dy) : Dy := dyRound (a.m * b.m) (a.e + b.e)

/-- JavaScript `+` on doubles: the exact sum, correctly rounded. -/
def jsAdd (a b : Dy) : Dy :=
  let e := min a.e b.e
  dyRound (a.m * 2 ^ (a.e - e).toNat + b.m * 2 ^ (b.e - e).toNat) e

/-- A JavaScript integer as a double (exact below `2^53`). -/
def dyOfNat (n : Nat) : Dy := ⟨(n : Int), 0⟩

/-- `x.toFixed(2)` of a nonnegative double, as integer cents: round `100 * x`
to the nearest integer, ties to the larger. -/
def toFixed2Cents (x : Dy) : Int :=
  if 0 ≤ x.e then x.m * 100 * 2 ^ x.e.toNat
  else ratRoundHalfUp (x.m * 100) (2 ^ (-x.e).toNat)

/-- A decimal numeral string such as WooCommerce's `price` field: `Dec m s`
denotes the string for `m / 10^s` with exactly `s` digits after the point
(`Dec 1999 2` is `"19.99"`, `Dec 500 2` is `"5.00"`). -/
structure Dec where
  m : Int
  s : Nat
deriving DecidableEq, Repr

/-- `parseFloat` applied to a decimal numeral: the nearest double. -/
def parseFloatDec (p : Dec) : Dy := roundDoubleRat p.m (10 ^ p.s)

/-- Render integer cents the way `toFixed(2)` renders the amount:
digits, a point, and exactly two fractional digits. -/
def centsToString (c : Int) : String :=
  let n := c.toNat
  toString (n / 100) ++ "." ++ (if n % 100 < 10 then "0" else "") ++ toString (n % 100)

/-! ## Checkout pipeline data model (src/app/api/checkout/route.ts)

The handler is embedded as a pure function of the request and an environment
that assigns every line-item index its backend fetch outcome (the code issues
one product fetch per line item, in `line_items` order, plus one variation
fetch per line item that carries a `variation_id`).  `Promise.all` preserves
input order for the product phase; variation error pushes, which in the code
happen in promise-completion order, are modelled in input order — every
theorem below is insensitive to that interleaving. -/

/-- `LineItem` of the checkout route. -/
structure LineItem where
  product_id : Nat
  quantity : Nat
  variation_id : Option Nat
deriving DecidableEq, Repr

/-- The `field` union of `ValidationError`. -/
inductive ErrorField
  | price
  | stock
  | variation
  | availability
deriving DecidableEq, Repr

/-- `ValidationError` of the checkout route. -/
structure ValidationError where
  field : ErrorField
  product_id : Nat
  product_name : String
  message : String
  expected : Option String
  actual : Option String
deriving DecidableEq, Repr

/-- `WooCommerceProduct` of the checkout route (also the shape of a fetched
variation record; the decimal price string is carried as its `Dec` numeral). -/
structure WooCommerceProduct where
  price : Dec
  name : String
  purchasable : Bool
  stock_status : String
  stock_quantity : Option Int
deriving DecidableEq, Repr

/-- Outcome of one backend read (`fetchProduct`/`fetchVariation`): a thrown
failure with its message (non-404 HTTP error or network failure), `null`
(backend 404), or the fetched record. -/
inductive Fetch
  | fail (msg : String)
  | notFound
  | found (product : WooCommerceProduct)
deriving DecidableEq, Repr

/-- A value of the `productsToValidate` map:
`{ product, quantity, name }`. -/
structure ProductData where
  product : WooCommerceProduct
  quantity : Nat
  name : String
deriving DecidableEq, Repr

/-- A JavaScript `Map<number, ProductData>`: an insertion-ordered association
list; `set` overwrites the value of an existing key in place. -/
abbrev PMap := List (Nat × ProductData)

/-- `Map.prototype.set`: overwrite an existing key's value keeping its
position, else append. -/
def mapSet : PMap → Nat → ProductData → PMap
  | [], k, v => [(k, v)]
  | (k2, v2) :: rest, k, v =>
    if k2 = k then (k2, v) :: rest else (k2, v2) :: mapSet rest k v

/-- `Map.prototype.get`. -/
def mapGet : PMap → Nat → Option ProductData
  | [], _ => none
  | (k2, v2) :: rest, k => if k2 = k then some v2 else mapGet rest k

/-! ## Validation phases -/

/-- The `availability` error pushed when a line item's product fetch throws:
`Unable to verify product availability: <error message>`. -/
def fetchFailError (item : LineItem) (msg : String) : ValidationError :=
  { field := ErrorField.availability
    product_id := item.product_id
    product_name := s!"Product {item.product_id}"
    message := s!"Unable to verify product availability: {msg}"
    expected := none
    actual := none }

/-- The `availability` error pushed when a line item's product fetch returns
`null` (backend 404). -/
def notFoundError (item : LineItem) : ValidationError :=
  { field := ErrorField.availability
    product_id := item.product_id
    product_name := s!"Product {item.product_id}"
    message := "Product no longer available"
    expected := none
    actual := none }

/-- `productResults`: one fetch outcome per line item, in `line_items` order
(the code maps `line_items` to concurrent fetches and `Promise.all` preserves
order). -/
def productResults (fetch : Nat → Fetch) (items : List LineItem) :
    List (LineItem × Fetch) :=
  (items.enum).map (fun p => (p.2, fetch p.1))

/-- Phase 1 of the handler: walk the fetch results in order, pushing an
`availability` error for a thrown fetch or a `null` product and otherwise
`set`ting the product into `productsToValidate` keyed by `product_id` (a
duplicated `product_id` overwrites the earlier entry's value). -/
def phase1 : List (LineItem × Fetch) → PMap → List ValidationError × PMap
  | [], m => ([], m)
  | (item, Fetch.fail msg) :: rest, m =>
    let r := phase1 rest m
    (fetchFailError item msg :: r.1, r.2)
  | (item, Fetch.notFound) :: rest, m =>
    let r := phase1 rest m
    (notFoundError item :: r.1, r.2)
  | (item, Fetch.found p) :: rest, m =>
    phase1 rest (mapSet m item.product_id ⟨p, item.quantity, p.name⟩)

/-- Phase 2 checks for one `productsToValidate` entry: purchasability, stock
status, and stock quantity against the entry's (single) stored quantity. -/
def validateStock (productId : Nat) (d : ProductData) : List ValidationError :=
  (if d.product.purchasable = false then
    [{ field := ErrorField.availability
       product_id := productId
       product_name := d.name
       message := s!"Product \"{d.name}\" is not available for purchase"
       expected := none
       actual := none }]
  else []) ++
  (if d.product.stock_status = "outofstock" then
    [{ field := ErrorField.stock
       product_id := productId
       product_name := d.name
       message := s!"Product \"{d.name}\" is out of stock"
       expected := none
       actual := none }]
  else []) ++
  (match d.product.stock_quantity with
   | some sq =>
     if sq < (d.quantity : Int) then
       [{ field := ErrorField.stock
          product_id := productId
          product_name := d.name
          message := s!"Insufficient stock for \"{d.name}\". Requested: {d.quantity}, Available: {sq}"
          expected := some (toString d.quantity)
          actual := some (toString sq) }]
     else []
   | none => [])

/-- Phase 2 of the handler: validate every `productsToValidate` entry, in map
insertion order. -/
def phase2 : PMap → List ValidationError
  | [] => []
  | (pid, d) :: rest => validateStock pid d ++ phase2 rest

/-- The line items carrying a `variation_id`, paired with their variation
fetch outcome, in input order. -/
def variationResults (vfetch : Nat → Fetch) (items : List LineItem) :
    List (LineItem × Nat × Fetch) :=
  (items.enum).filterMap (fun p =>
    match (p.2).variation_id with
    | some vid => some (p.2, vid, vfetch p.1)
    | none => none)

/-- The `variation` error pushed when a line item's variation fetch throws:
`Unable to verify variation: <error message>`. -/
def variationFetchFailError (item : LineItem) (msg : String) : ValidationError :=
  { field := ErrorField.variation
    product_id := item.product_id
    product_name := s!"Product {item.product_id}"
    message := s!"Unable to verify variation: {msg}"
    expected := none
    actual := none }

/-- Phase 3 checks for one variation-carrying line item: a thrown variation
fetch or a `null` variation yields a `variation` error; a fetched variation
record undergoes the purchasable / stock-status / stock-quantity checks
against the item's quantity. -/
def validateVariationFetch (item : LineItem) (vid : Nat) :
    Fetch → List ValidationError
  | Fetch.fail msg => [variationFetchFailError item msg]
  | Fetch.notFound =>
    [{ field := ErrorField.variation
       product_id := item.product_id
       product_name := s!"Product {item.product_id}"
       message := s!"Variation {vid} no longer available"
       expected := none
       actual := none }]
  | Fetch.found v =>
    (if v.purchasable = false then
      [{ field := ErrorField.availability
         product_id := item.product_id
         product_name := s!"Variation of product {item.product_id}"
         message := "Variation is not available for purchase"
         expected := none
         actual := none }]
    else []) ++
    (if v.stock_status = "outofstock" then
      [{ field := ErrorField.stock
         product_id := item.product_id
         product_name := s!"Variation of product {item.product_id}"
         message := "Variation is out of stock"
         expected := none
         actual := none }]
    else []) ++
    (match v.stock_quantity with
     | some sq =>
       if sq < (item.quantity : Int) then
         [{ field := ErrorField.stock
            product_id := item.product_id
            product_name := s!"Variation of product {item.product_id}"
            message := s!"Insufficient stock for variation. Requested: {item.quantity}, Available: {sq}"
            expected := some (toString item.quantity)
            actual := some (toString sq) }]
       else []
     | none => [])

/-- Phase 3 of the handler over all variation-carrying items. -/
def phase3 : List (LineItem × Nat × Fetch) → List ValidationError
  | [] => []
  | (item, vid, f) :: rest => validateVariationFetch item vid f ++ phase3 rest

/-- Everything the handler consumes from the outside world: per-line-item
product fetch outcomes, per-line-item variation fetch outcomes, the order
creation outcome per attempt, and the `Math.random()` stream. -/
structure CheckoutEnv where
  productFetch : Nat → Fetch
  variationFetch : Nat → Fetch
  orderOp : Nat → Except JsError Nat
  rand : Nat → ℚ

/-- The full validation pass of one request: the aggregated error list (phase
1 fetch errors, then phase 2 stock checks, then phase 3 variation checks) and
the resolved-products map. -/
def runValidation (env : CheckoutEnv) (items : List LineItem) :
    List ValidationError × PMap :=
  let r := phase1 (productResults env.productFetch items) []
  (r.1 ++ phase2 r.2 ++ phase3 (variationResults env.variationFetch items), r.2)

/-! ## Price snapshot and the POST handler -/

/-- `PriceSnapshotItem` of the checkout route; `unit_price` is the product's
price string verbatim, `total_price` is `(unitPrice * quantity).toFixed(2)`,
carried as integer cents. -/
structure PriceSnapshotItem where
  product_id : Nat
  variation_id : Option Nat
  name : String
  quantity : Nat
  unit_price : Dec
  total_price_cents : Int
  tax_class : String
  tax_status : String
deriving DecidableEq, Repr

/-- `PriceSnapshot` of the checkout route (`created_at`, a wall-clock read, is
not modelled; money strings are carried as integer cents). -/
structure PriceSnapshot where
  version : String
  request_id : String
  items : List PriceSnapshotItem
  subtotal_cents : Int
  total_tax_cents : Int
  total_cents : Int
  currency : String
  prices_include_tax : Bool
deriving DecidableEq, Repr

/-- The loop of `createPriceSnapshot`: walk the line items; a `product_id`
missing from the map is skipped (`continue`); otherwise push the snapshot
item — quantity and prices taken from the map entry — and accumulate
`subtotal += totalPrice` in double arithmetic (left to right, starting
from 0). -/
def snapshotLoop (products : PMap) :
    List LineItem → Dy → List PriceSnapshotItem × Dy
  | [], acc => ([], acc)
  | item :: rest, acc =>
    match mapGet products item.product_id with
    | none => snapshotLoop products rest acc
    | some pd =>
      let unitPrice := parseFloatDec pd.product.price
      let totalPrice := jsMul unitPrice (dyOfNat pd.quantity)
      let r := snapshotLoop products rest (jsAdd acc totalPrice)
      ({ product_id := item.product_id
         variation_id := item.variation_id
         name := pd.product.name
         quantity := pd.quantity
         unit_price := pd.product.price
         total_price_cents := toFixed2Cents totalPrice
         tax_class := "standard"
         tax_status := "taxable" } :: r.1, r.2)

/-- `createPriceSnapshot(products, lineItems, requestId)` of the checkout
route. -/
def createPriceSnapshot (products : PMap) (lineItems : List LineItem)
    (requestId : String) : PriceSnapshot :=
  let r := snapshotLoop products lineItems ⟨0, 0⟩
  { version := "1.0.0"
    request_id := requestId
    items := r.1
    subtotal_cents := toFixed2Cents r.2
    total_tax_cents := 0
    total_cents := toFixed2Cents r.2
    currency := "EUR"
    prices_include_tax := true }

/-- The HTTP response bodies the handler can produce. -/
inductive CheckoutResponse
  | badRequest (error : String)
  | conflict (validation_errors : List ValidationError)
      (out_of_stock_product_ids : List Nat)
  | created (orderId : Nat) (snapshot : PriceSnapshot)
  | serverError
deriving DecidableEq, Repr

/-- The HTTP status attached to each response shape. -/
def httpStatus : CheckoutResponse → Nat
  | CheckoutResponse.badRequest _ => 400
  | CheckoutResponse.conflict _ _ => 409
  | CheckoutResponse.created _ _ => 201
  | CheckoutResponse.serverError => 500

/-- One handler run: the response plus how many order-creation attempts were
issued to the backend. -/
structure CheckoutRun where
  response : CheckoutResponse
  orderAttempts : Nat
deriving DecidableEq, Repr

/-- `[...new Set(xs)]`: deduplicate keeping first occurrences, in order. -/
def jsDedupGo : List Nat → List Nat → List Nat
  | [], _ => []
  | x :: xs, seen =>
    if x ∈ seen then jsDedupGo xs seen else x :: jsDedupGo xs (x :: seen)

/-- Deduplication as the handler performs it with a JavaScript `Set`. -/
def jsDedup (l : List Nat) : List Nat := jsDedupGo l []

/-- The handler's `criticalErrors`: validation errors whose field is `stock`,
`variation` or `availability`. -/
def criticalErrors (errors : List ValidationError) : List ValidationError :=
  errors.filter (fun err =>
    err.field == ErrorField.stock || err.field == ErrorField.variation ||
      err.field == ErrorField.availability)

/-- The handler's `outOfStockProductIds` (before `Set` deduplication): the
product ids of the critical errors whose field is `stock` or `variation`. -/
def outOfStockProductIds (errors : List ValidationError) : List Nat :=
  ((criticalErrors errors).filter (fun err =>
    err.field == ErrorField.stock || err.field == ErrorField.variation)).map
    (fun err => err.product_id)

/-- The `POST /api/checkout` handler: input-shape guards (400), the
validation phases, the atomic validation checkpoint (409 with the full error
list and the deduplicated out-of-stock ids, zero order-creation calls), and
otherwise snapshot creation followed by order creation through `withRetry`
(201 on success, 500 once retries exhaust). -/
def checkoutPOST (env : CheckoutEnv) (billingPresent : Bool)
    (items : List LineItem) (requestId : String) : CheckoutRun :=
  if billingPresent = false then
    ⟨CheckoutResponse.badRequest
      "Missing or invalid required fields: billing and line_items (must be an array)", 0⟩
  else if items.isEmpty then
    ⟨CheckoutResponse.badRequest "Cart is empty", 0⟩
  else
    let v := runValidation env items
    if 0 < v.1.length then
      ⟨CheckoutResponse.conflict v.1 (jsDedup (outOfStockProductIds v.1)), 0⟩
    else
      let snapshot := createPriceSnapshot v.2 items requestId
      match withRetry env.orderOp env.rand with
      | RetryOutcome.ok orderId n _ =>
        ⟨CheckoutResponse.created orderId snapshot, n⟩
      | RetryOutcome.failed _ n _ =>
        ⟨CheckoutResponse.serverError, n⟩

end KyriakosShop

namespace KyriakosShop

open OrderStatus

/-- Decoding inverts encoding on every history entry. -/
theorem decodeEntry_encodeEntry (e : OrderStatusHistoryEntry) :
    decodeEntry (encodeEntry e) = e := by
  obtain ⟨ts, fs, to_, rsn, act⟩ := e
  cases fs <;> cases to_ <;> cases act <;>
    simp [encodeEntry, decodeEntry, jsonObjGet, statusToString, statusFromString,
      actorToString, actorFromString] <;>
    rename_i s <;> cases s <;> rfl

/-- Recording a delay prepends it to the run's delay list. -/
theorem retryDelays_retryCons {α : Type} (d : ℚ) (r : RetryOutcome α) :
    retryDelays (retryCons d r) = d :: retryDelays r := by
  cases r <;> rfl

/-- Each delay slept by the retry loop follows the exponential-backoff
formula for the attempt it was slept after. -/
theorem withRetryGo_delays_getD {α : Type} (op : Nat → Except JsError α)
    (rand : Nat → ℚ) :
    ∀ remaining attempt k : Nat,
      k < (retryDelays (withRetryGo op rand remaining attempt)).length →
      (retryDelays (withRetryGo op rand remaining attempt)).getD k 0 =
        backoffDelay (attempt + k) + rand (attempt + k) * 50 := by
  intro remaining
  induction remaining with
  | zero =>
    intro attempt k hk
    simp [withRetryGo, retryDelays] at hk
  | succ n ih =>
    intro attempt k hk
    rw [withRetryGo] at hk ⊢
    cases hop : op attempt with
    | ok v => simp [hop, retryDelays] at hk
    | error e =>
      simp only [hop] at hk ⊢
      by_cases htr : isTransientError (effStatusCode e) e.code = false
      · simp [htr, retryDelays] at hk
      · have htr' : isTransientError (effStatusCode e) e.code = true := by
          simpa using htr
        rw [htr'] at hk ⊢
        rw [if_neg (by simp)] at hk ⊢
        by_cases hn : n = 0
        · rw [if_pos hn] at hk
          simp [retryDelays] at hk
        · rw [if_neg hn] at hk ⊢
          rw [retryDelays_retryCons] at hk ⊢
          cases k with
          | zero => simp
          | succ k =>
            simp only [List.length_cons, Nat.succ_lt_succ_iff] at hk
            have := ih (attempt + 1) k hk
            simpa [Nat.add_assoc, Nat.add_comm 1 k] using this

/-- C8 — backoff schedule: the retry configuration defaults are
`initialDelay = 100` ms, `maxDelay = 1000` ms, `maxRetries = 2`, and the delay
slept before retrying attempt `k` (0-indexed) is
`min(initialDelay * 2^k, maxDelay)` plus the jitter `Math.random() * 50`,
which lies in `[0, 50)` ms. -/
theorem withRetry_backoff_schedule :
    RETRY_CONFIG.maxRetries = 2 ∧ RETRY_CONFIG.initialDelayMs = 100 ∧
    RETRY_CONFIG.maxDelayMs = 1000 ∧
    ∀ {α : Type} (op : Nat → Except JsError α) (rand : Nat → ℚ),
      (∀ n, 0 ≤ rand n ∧ rand n < 1) →
      ∀ k : Nat, k < (retryDelays (withRetry op rand)).length →
        (retryDelays (withRetry op rand)).getD k 0 =
          min (RETRY_CONFIG.initialDelayMs * 2 ^ k) RETRY_CONFIG.maxDelayMs
            + rand k * 50
        ∧ 0 ≤ rand k * 50 ∧ rand k * 50 < 50 := by
  refine ⟨rfl, rfl, rfl, ?_⟩
  intro α op rand hr k hk
  refine ⟨?_, ?_, ?_⟩
  · have := withRetryGo_delays_getD op rand (RETRY_CONFIG.maxRetries + 1) 0 k hk
    simpa [backoffDelay] using this
  · exact mul_nonneg (hr k).1 (by norm_num)
  · have h1 := (hr k).2
    linarith

/-- A checkout backend that answers 503 Service Unavailable on every attempt. -/
def always503op : Nat → Except JsError Unit :=
  fun _ => Except.error ⟨"Service Unavailable", some 503, none, none⟩

/-- A checkout backend that answers 400 Bad Request on every attempt. -/
def always400op : Nat → Except JsError Unit :=
  fun _ => Except.error ⟨"Bad Request", some 400, none, none⟩

/-- A `Math.random()` stream that always yields 0. -/
def zeroRand : Nat → ℚ := fun _ => 0

/-- Witness for C8: against an always-503 backend with zero jitter, the first
slept delay is exactly 100 ms. -/
theorem withRetry_backoff_schedule_witness :
    (retryDelays (withRetry always503op zeroRand)).getD 0 0 = 100 := by
  have h := withRetry_backoff_schedule.2.2.2 always503op zeroRand
    (fun n => by norm_num [zeroRand]) 0 (by decide)
  simpa [zeroRand, RETRY_CONFIG] using h.1

/-- C5 — retry classification: an error is classified transient exactly when
its status code is ≥ 500, or exactly 429, or its WooCommerce error code is in
the known transient set; a fatal error is rethrown after a single attempt with
no sleeping; a persistent 503 error exhausts exactly `maxRetries` additional
attempts (3 in total) before the final error is rethrown; a 400 error without
a backend error code causes zero retries. -/
theorem retry_classification_spec :
    (∀ (s : Nat) (c : Option String),
      isTransientError s c = true ↔
        (500 ≤ s ∨ s = 429 ∨ ∃ cc, c = some cc ∧ cc ∈ transientCodes))
    ∧ (∀ {α : Type} (op : Nat → Except JsError α) (rand : Nat → ℚ) (e : JsError),
        op 0 = Except.error e →
        isTransientError (effStatusCode e) e.code = false →
        withRetry op rand = RetryOutcome.failed e 1 [])
    ∧ (∀ {α : Type} (op : Nat → Except JsError α) (rand : Nat → ℚ) (e : JsError),
        (∀ n, op n = Except.error e) →
        e.statusCode = some 503 →
        withRetry op rand =
          RetryOutcome.failed e 3 [100 + rand 0 * 50, 200 + rand 1 * 50])
    ∧ (∀ {α : Type} (op : Nat → Except JsError α) (rand : Nat → ℚ) (e : JsError),
        op 0 = Except.error e →
        e.statusCode = some 400 → e.code = none →
        withRetry op rand = RetryOutcome.failed e 1 []) := by
  refine ⟨?_, ?_, ?_, ?_⟩
  · intro s c
    unfold isTransientError
    split_ifs with h1 h2
    · simp [h1]
    · simp [h2]
    · cases c with
      | none => simp [h1, h2]
      | some cc => simp [h1, h2, List.elem_iff]
  · intro α op rand e hop htr
    rw [withRetry]
    show withRetryGo op rand (2 + 1) 0 = _
    rw [withRetryGo, hop]
    simp [htr]
  · intro α op rand e hop hsc
    have htr : isTransientError (effStatusCode e) e.code = true := by
      simp [effStatusCode, hsc, isTransientError]
    rw [withRetry]
    show withRetryGo op rand (2 + 1) 0 = _
    rw [withRetryGo, hop 0]
    simp only [htr, Bool.true_eq_false, if_false, if_neg (by norm_num : ¬(2 : Nat) = 0)]
    rw [show (2 : Nat) = 1 + 1 from rfl, withRetryGo, hop 1]
    simp only [htr, Bool.true_eq_false, if_false, if_neg (by norm_num : ¬(1 : Nat) = 0)]
    rw [show (1 : Nat) = 0 + 1 from rfl, withRetryGo, hop 2]
    simp only [htr, Bool.true_eq_false, if_false, if_pos rfl, retryCons]
    norm_num [backoffDelay, RETRY_CONFIG, min_def]
  · intro α op rand e hop hsc hcode
    have htr : isTransientError (effStatusCode e) e.code = false := by
      simp [effStatusCode, hsc, hcode, isTransientError]
    rw [withRetry]
    show withRetryGo op rand (2 + 1) 0 = _
    rw [withRetryGo, hop]
    simp [htr]

/-- Witness for C5: a persistent 503 gives 3 attempts and two backoff sleeps;
a 400 gives a single attempt and no sleep; 503 is classified transient and
400 fatal. -/
theorem retry_classification_witness :
    withRetry always503op zeroRand =
      RetryOutcome.failed ⟨"Service Unavailable", some 503, none, none⟩ 3 [100, 200]
    ∧ withRetry always400op zeroRand =
      RetryOutcome.failed ⟨"Bad Request", some 400, none, none⟩ 1 []
    ∧ isTransientError 503 none = true
    ∧ isTransientError 400 none = false := by
  refine ⟨?_, ?_, ?_, ?_⟩
  · have h := retry_classification_spec.2.2.1 always503op zeroRand
      ⟨"Service Unavailable", some 503, none, none⟩ (fun n => rfl) rfl
    simpa [zeroRand] using h
  · exact retry_classification_spec.2.2.2 always400op zeroRand
      ⟨"Bad Request", some 400, none, none⟩ rfl rfl rfl
  · exact (retry_classification_spec.1 503 none).mpr (Or.inl (by norm_num))
  · decide

/-- An empty cart validates to no errors and an empty map. -/
theorem runValidation_nil (env : CheckoutEnv) :
    runValidation env [] = ([], []) := rfl

/-- A checkout request passing the input guards whose validation produced at
least one error answers with the 409 conflict body — the full error list and
the deduplicated stock/variation product ids — without entering the order
path. -/
theorem checkoutPOST_conflict (env : CheckoutEnv) (items : List LineItem)
    (requestId : String) (h : (runValidation env items).1 ≠ []) :
    checkoutPOST env true items requestId =
      ⟨CheckoutResponse.conflict (runValidation env items).1
        (jsDedup (outOfStockProductIds (runValidation env items).1)), 0⟩ := by
  have hne : items ≠ [] := by
    rintro rfl
    exact h (congrArg Prod.fst (runValidation_nil env))
  rw [checkoutPOST]
  rw [if_neg (by simp)]
  rw [if_neg (by simp [List.isEmpty_iff, hne])]
  rw [if_pos (List.length_pos.mpr h)]

/-- C1 — all-or-nothing checkout: whenever validation produces at least one
`ValidationError` (of any field), the handler answers HTTP 409 carrying the
full `validation_errors` list, and issues zero order-creation attempts, so no
order is created. -/
theorem checkout_all_or_nothing (env : CheckoutEnv) (items : List LineItem)
    (requestId : String) (h : (runValidation env items).1 ≠ []) :
    httpStatus (checkoutPOST env true items requestId).response = 409
    ∧ (checkoutPOST env true items requestId).response =
        CheckoutResponse.conflict (runValidation env items).1
          (jsDedup (outOfStockProductIds (runValidation env items).1))
    ∧ (checkoutPOST env true items requestId).orderAttempts = 0 := by
  rw [checkoutPOST_conflict env items requestId h]
  exact ⟨rfl, rfl, rfl⟩

/-- A product record that is out of stock by status. -/
def outOfStockProduct : WooCommerceProduct :=
  ⟨⟨1000, 2⟩, "Gadget", true, "outofstock", none⟩

/-- An environment whose backend 404s every product read. -/
def envAllNotFound : CheckoutEnv :=
  ⟨fun _ => Fetch.notFound, fun _ => Fetch.notFound, fun _ => Except.ok 1,
   fun _ => 0⟩

/-- An environment where product 1 (first item) is out of stock and every
other read 404s. -/
def envMixed : CheckoutEnv :=
  ⟨fun i => if i = 0 then Fetch.found outOfStockProduct else Fetch.notFound,
   fun _ => Fetch.notFound, fun _ => Except.ok 1, fun _ => 0⟩

/-- Witness for C1: a one-item cart whose product no longer exists gets a 409
and zero order-creation attempts. -/
theorem checkout_all_or_nothing_witness :
    httpStatus (checkoutPOST envAllNotFound true [⟨1, 1, none⟩] "req").response = 409
    ∧ (checkoutPOST envAllNotFound true [⟨1, 1, none⟩] "req").orderAttempts = 0 := by
  have h := checkout_all_or_nothing envAllNotFound [⟨1, 1, none⟩] "req" (by decide)
  exact ⟨h.1, h.2.2⟩

/-- Modelled from the spec's words, for comparison with the code's
`outOfStockProductIds`: the deduplicated union of the product ids of all
validation errors whose field is `stock`, `variation` or `availability`. -/
def specOutOfStockProductIds (errors : List ValidationError) : List Nat :=
  jsDedup ((errors.filter (fun err =>
    err.field == ErrorField.stock || err.field == ErrorField.variation ||
      err.field == ErrorField.availability)).map (fun err => err.product_id))

/-- C3 counterexample — a cart whose single product read returns 404 produces
one `availability` error; the handler's `out_of_stock_product_ids` is `[]`,
while the claimed union of stock+variation+availability ids is `[1]`, so the
response differs from what the claim prescribes. -/
theorem out_of_stock_ids_cex :
    (checkoutPOST envAllNotFound true [⟨1, 1, none⟩] "req").response =
      CheckoutResponse.conflict
        [⟨ErrorField.availability, 1, "Product 1", "Product no longer available",
          none, none⟩] []
    ∧ specOutOfStockProductIds
        [⟨ErrorField.availability, 1, "Product 1", "Product no longer available",
          none, none⟩] = [1]
    ∧ (checkoutPOST envAllNotFound true [⟨1, 1, none⟩] "req").response ≠
      CheckoutResponse.conflict
        [⟨ErrorField.availability, 1, "Product 1", "Product no longer available",
          none, none⟩]
        (specOutOfStockProductIds
          [⟨ErrorField.availability, 1, "Product 1", "Product no longer available",
            none, none⟩]) := by
  refine ⟨by decide, by decide, by decide⟩

/-- The handler's two-step filter collapses: `out_of_stock_product_ids`
collects exactly the ids of `stock` and `variation` errors. -/
theorem outOfStock_eq_filter (errors : List ValidationError) :
    outOfStockProductIds errors =
      (errors.filter (fun err =>
        err.field == ErrorField.stock ||
          err.field == ErrorField.variation)).map (fun err => err.product_id) := by
  rw [outOfStockProductIds, criticalErrors, List.filter_filter]
  congr 1
  apply List.filter_congr
  intro e he
  cases hf : e.field <;> simp [hf]

/-- C3 amended — for every checkout request failing validation, the 409
response's `out_of_stock_product_ids` equals the deduplicated union of the
product ids of the validation errors whose field is `stock` or `variation`
(`availability` errors are not included). -/
theorem out_of_stock_ids_eq (env : CheckoutEnv) (items : List LineItem)
    (requestId : String) (h : (runValidation env items).1 ≠ []) :
    (checkoutPOST env true items requestId).response =
      CheckoutResponse.conflict (runValidation env items).1
        (jsDedup (((runValidation env items).1.filter (fun err =>
          err.field == ErrorField.stock ||
            err.field == ErrorField.variation)).map (fun err => err.product_id))) := by
  rw [checkoutPOST_conflict env items requestId h, ← outOfStock_eq_filter]

/-- Witness for C3 amended: a cart with one out-of-stock product (id 1) and
one vanished product (id 2) reports both errors but only id 1 in
`out_of_stock_product_ids`. -/
theorem out_of_stock_ids_eq_witness :
    (checkoutPOST envMixed true [⟨1, 1, none⟩, ⟨2, 1, none⟩] "req").response =
      CheckoutResponse.conflict
        [⟨ErrorField.availability, 2, "Product 2", "Product no longer available",
          none, none⟩,
         ⟨ErrorField.stock, 1, "Gadget", "Product \"Gadget\" is out of stock",
          none, none⟩] [1] := by
  have h := out_of_stock_ids_eq envMixed [⟨1, 1, none⟩, ⟨2, 1, none⟩] "req" (by decide)
  rw [h]
  decide

/-- A purchasable, in-stock product with 2 units of stock. -/
def instockProduct : WooCommerceProduct :=
  ⟨⟨1000, 2⟩, "Widget", true, "instock", some 2⟩

/-- An environment where every product read returns `instockProduct`, no
variation exists, and order creation succeeds at once. -/
def envDup : CheckoutEnv :=
  ⟨fun _ => Fetch.found instockProduct, fun _ => Fetch.notFound,
   fun _ => Except.ok 1, fun _ => 0⟩

/-- C6 counterexample — a cart with two line items for product 1, quantities
5 and 1, against stock 2: the claim demands a stock `ValidationError` for the
quantity-5 item, but validation reports no error at all and the handler
creates the order (HTTP 201). -/
theorem duplicate_item_independent_cex :
    (runValidation envDup [⟨1, 5, none⟩, ⟨1, 1, none⟩]).1 = []
    ∧ httpStatus
        (checkoutPOST envDup true [⟨1, 5, none⟩, ⟨1, 1, none⟩] "req").response = 201 := by
  refine ⟨by decide, by decide⟩

/-- `productResults` on a two-item cart. -/
theorem productResults_pair (fetch : Nat → Fetch) (a b : LineItem) :
    productResults fetch [a, b] = [(a, fetch 0), (b, fetch 1)] := rfl

/-- C6 amended — duplicate `product_id` entries are not validated
independently: the second `Map.set` overwrites the first entry's quantity, so
the product is stock-checked only against the **last** duplicate's quantity.
With quantities `q1` then `q2` and stock `s ≥ q2` (for a purchasable, not
out-of-stock product), validation succeeds with no error even when `s < q1`,
and the resolved map stores quantity `q2`. -/
theorem duplicate_item_last_quantity (env : CheckoutEnv)
    (P : WooCommerceProduct) (p q1 q2 : Nat) (s : Int)
    (h0 : env.productFetch 0 = Fetch.found P)
    (h1 : env.productFetch 1 = Fetch.found P)
    (hpur : P.purchasable = true) (hst : P.stock_status ≠ "outofstock")
    (hq : P.stock_quantity = some s) (hle : (q2 : Int) ≤ s) :
    mapGet (runValidation env [⟨p, q1, none⟩, ⟨p, q2, none⟩]).2 p =
      some ⟨P, q2, P.name⟩
    ∧ (runValidation env [⟨p, q1, none⟩, ⟨p, q2, none⟩]).1 = [] := by
  have hnot : ¬(s < (q2 : Int)) := not_lt.mpr hle
  constructor
  · simp [runValidation, productResults_pair, h0, h1, phase1, mapSet, mapGet]
  · simp [runValidation, productResults_pair, h0, h1, phase1, mapSet, phase2,
      phase3, validateStock, hpur, hst, hq, hnot, variationResults]

/-- Witness for C6 amended: product 1 with stock 2, quantities 5 then 1 — the
map keeps quantity 1 and validation passes. -/
theorem duplicate_item_last_quantity_witness :
    mapGet (runValidation envDup [⟨1, 5, none⟩, ⟨1, 1, none⟩]).2 1 =
      some ⟨instockProduct, 1, "Widget"⟩
    ∧ (runValidation envDup [⟨1, 5, none⟩, ⟨1, 1, none⟩]).1 = [] := by
  have h := duplicate_item_last_quantity envDup instockProduct 1 5 1 2
    rfl rfl rfl (by decide) rfl (by decide)
  exact ⟨h.1, h.2⟩

/-- An environment whose product reads all throw. -/
def envProdFail : CheckoutEnv :=
  ⟨fun _ => Fetch.fail "timeout", fun _ => Fetch.notFound,
   fun _ => Except.ok 1, fun _ => 0⟩

/-- An environment whose variation reads all throw. -/
def envVarFail : CheckoutEnv :=
  ⟨fun _ => Fetch.found instockProduct, fun _ => Fetch.fail "network down",
   fun _ => Except.ok 1, fun _ => 0⟩

/-- C7 counterexample — for a line item whose variation fetch fails, the
recorded `ValidationError` has field `variation`, not `availability` as the
claim states. -/
theorem variation_read_failure_cex :
    (runValidation envVarFail [⟨1, 1, some 7⟩]).1 =
      [⟨ErrorField.variation, 1, "Product 1",
        "Unable to verify variation: network down", none, none⟩]
    ∧ ErrorField.variation ≠ ErrorField.availability := by
  refine ⟨by decide, by decide⟩

/-- Indexed membership in `List.enumFrom`. -/
theorem get_mem_enumFrom {α : Type} :
    ∀ (l : List α) (n i : Nat) (h : i < l.length),
      (n + i, l.get ⟨i, h⟩) ∈ List.enumFrom n l := by
  intro l
  induction l with
  | nil => intro n i h; simp at h
  | cons a rest ih =>
    intro n i h
    cases i with
    | zero => simp [List.enumFrom]
    | succ i =>
      have hi : i < rest.length := Nat.succ_lt_succ_iff.mp h
      have := ih (n + 1) i hi
      simpa [List.enumFrom, Nat.add_assoc, Nat.add_comm 1 i] using
        List.mem_cons_of_mem (n, a) this

/-- Each line item appears in `productResults` paired with its own fetch
outcome. -/
theorem mem_productResults (fetch : Nat → Fetch) (items : List LineItem)
    (i : Nat) (h : i < items.length) :
    (items.get ⟨i, h⟩, fetch i) ∈ productResults fetch items := by
  have hmem := get_mem_enumFrom items 0 i h
  rw [Nat.zero_add] at hmem
  exact List.mem_map_of_mem (fun p => (p.2, fetch p.1)) hmem

/-- Each variation-carrying line item appears in `variationResults` with its
variation id and its own variation-fetch outcome. -/
theorem mem_variationResults (vfetch : Nat → Fetch) (items : List LineItem)
    (i : Nat) (h : i < items.length) (vid : Nat)
    (hvid : (items.get ⟨i, h⟩).variation_id = some vid) :
    (items.get ⟨i, h⟩, vid, vfetch i) ∈ variationResults vfetch items := by
  have hmem := get_mem_enumFrom items 0 i h
  rw [Nat.zero_add] at hmem
  refine List.mem_filterMap.mpr ⟨(i, items.get ⟨i, h⟩), hmem, ?_⟩
  simp only [List.get_eq_getElem] at hvid
  simp [hvid]

/-- A line item whose product fetch threw contributes its availability error
to the phase-1 error list, whatever the other items do. -/
theorem phase1_mem_fail :
    ∀ (rs : List (LineItem × Fetch)) (m : PMap) (item : LineItem) (msg : String),
      (item, Fetch.fail msg) ∈ rs → fetchFailError item msg ∈ (phase1 rs m).1 := by
  intro rs
  induction rs with
  | nil => intro m item msg h; simp at h
  | cons hd rest ih =>
    intro m item msg h
    obtain ⟨it, f⟩ := hd
    rcases List.mem_cons.mp h with heq | hmem
    · cases heq
      exact List.mem_cons_self _ _
    · cases f with
      | fail msg2 => exact List.mem_cons_of_mem _ (ih m item msg hmem)
      | notFound => exact List.mem_cons_of_mem _ (ih m item msg hmem)
      | found P => exact ih _ item msg hmem

/-- A variation-carrying item contributes all its phase-3 errors to the
phase-3 error list. -/
theorem phase3_mem :
    ∀ (rs : List (LineItem × Nat × Fetch)) (item : LineItem) (vid : Nat)
      (f : Fetch) (e : ValidationError),
      (item, vid, f) ∈ rs → e ∈ validateVariationFetch item vid f →
      e ∈ phase3 rs := by
  intro rs
  induction rs with
  | nil => intro item vid f e h _; simp at h
  | cons hd rest ih =>
    intro item vid f e h he
    obtain ⟨it, vid2, f2⟩ := hd
    rcases List.mem_cons.mp h with heq | hmem
    · cases heq
      exact List.mem_append_left _ he
    · exact List.mem_append_right _ (ih item vid f e hmem he)

/-- `Map.set` then `get` at the same key yields the stored value. -/
theorem mapGet_mapSet_self :
    ∀ (m : PMap) (k : Nat) (v : ProductData), mapGet (mapSet m k v) k = some v := by
  intro m
  induction m with
  | nil => intro k v; simp [mapSet, mapGet]
  | cons hd rest ih =>
    intro k v
    obtain ⟨k2, v2⟩ := hd
    by_cases hk : k2 = k
    · simp [mapSet, mapGet, hk]
    · simp [mapSet, mapGet, hk, ih]

/-- `Map.set` never removes a key. -/
theorem mapGet_mapSet_isSome :
    ∀ (m : PMap) (k2 : Nat) (v : ProductData) (k : Nat),
      (mapGet m k).isSome → (mapGet (mapSet m k2 v) k).isSome := by
  intro m
  induction m with
  | nil => intro k2 v k h; simp [mapGet] at h
  | cons hd rest ih =>
    intro k2 v k h
    obtain ⟨k3, v3⟩ := hd
    by_cases hk : k3 = k2
    · subst hk
      by_cases hkk : k3 = k <;> simp_all [mapSet, mapGet]
    · by_cases hkk : k3 = k <;> simp_all [mapSet, mapGet]

/-- Phase 1 never removes a key from the resolved map. -/
theorem phase1_map_mono :
    ∀ (rs : List (LineItem × Fetch)) (m : PMap) (k : Nat),
      (mapGet m k).isSome → (mapGet (phase1 rs m).2 k).isSome := by
  intro rs
  induction rs with
  | nil => intro m k h; exact h
  | cons hd rest ih =>
    intro m k h
    obtain ⟨it, f⟩ := hd
    cases f with
    | fail msg => exact ih m k h
    | notFound => exact ih m k h
    | found P => exact ih _ k (mapGet_mapSet_isSome m it.product_id _ k h)

/-- A line item whose product fetch succeeded ends up in the resolved map,
whatever the other items do. -/
theorem phase1_map_found :
    ∀ (rs : List (LineItem × Fetch)) (m : PMap) (item : LineItem)
      (P : WooCommerceProduct),
      (item, Fetch.found P) ∈ rs →
      (mapGet (phase1 rs m).2 item.product_id).isSome := by
  intro rs
  induction rs with
  | nil => intro m item P h; simp at h
  | cons hd rest ih =>
    intro m item P h
    obtain ⟨it, f⟩ := hd
    rcases List.mem_cons.mp h with heq | hmem
    · cases heq
      exact phase1_map_mono rest _ item.product_id
        (by rw [mapGet_mapSet_self]; rfl)
    · cases f with
      | fail msg => exact ih m item P hmem
      | notFound => exact ih m item P hmem
      | found Q => exact ih _ item P hmem

/-- The resolved map of a validation run is the phase-1 map. -/
theorem runValidation_snd (env : CheckoutEnv) (items : List LineItem) :
    (runValidation env items).2 =
      (phase1 (productResults env.productFetch items) []).2 := rfl

/-- C7 amended — read-failure downgrade: a line item whose product fetch
fails yields a per-item `availability` error; a variation-carrying line item
whose variation fetch fails yields a per-item `variation` error (not
`availability`); in both cases the fetch phase is not aborted — every line
item whose product fetch succeeded is still resolved (and hence validated). -/
theorem read_failure_downgrade (env : CheckoutEnv) (items : List LineItem) :
    (∀ (i : Nat) (h : i < items.length) (msg : String),
      env.productFetch i = Fetch.fail msg →
      fetchFailError (items.get ⟨i, h⟩) msg ∈ (runValidation env items).1)
    ∧ (∀ (i : Nat) (h : i < items.length) (vid : Nat) (msg : String),
        (items.get ⟨i, h⟩).variation_id = some vid →
        env.variationFetch i = Fetch.fail msg →
        variationFetchFailError (items.get ⟨i, h⟩) msg ∈ (runValidation env items).1)
    ∧ (∀ (i : Nat) (h : i < items.length) (P : WooCommerceProduct),
        env.productFetch i = Fetch.found P →
        (mapGet (runValidation env items).2 (items.get ⟨i, h⟩).product_id).isSome) := by
  refine ⟨?_, ?_, ?_⟩
  · intro i h msg hf
    have hmem := mem_productResults env.productFetch items i h
    rw [hf] at hmem
    exact List.mem_append_left _ (List.mem_append_left _
      (phase1_mem_fail _ [] _ msg hmem))
  · intro i h vid msg hvid hf
    have hmem := mem_variationResults env.variationFetch items i h vid hvid
    rw [hf] at hmem
    exact List.mem_append_right _
      (phase3_mem _ _ vid (Fetch.fail msg) _ hmem (List.mem_cons_self _ _))
  · intro i h P hf
    have hmem := mem_productResults env.productFetch items i h
    rw [hf] at hmem
    rw [runValidation_snd]
    exact phase1_map_found _ [] _ P hmem

/-- Witness for C7 amended: a failing product read yields its availability
error; a failing variation read yields its variation error; a successful read
alongside them is still resolved. -/
theorem read_failure_downgrade_witness :
    fetchFailError ⟨1, 1, none⟩ "timeout" ∈
      (runValidation envProdFail [⟨1, 1, none⟩]).1
    ∧ variationFetchFailError ⟨2, 1, some 7⟩ "network down" ∈
      (runValidation envVarFail [⟨2, 1, some 7⟩]).1
    ∧ (mapGet (runValidation envVarFail [⟨2, 1, some 7⟩]).2 2).isSome = true := by
  refine ⟨?_, ?_, ?_⟩
  · exact (read_failure_downgrade envProdFail [⟨1, 1, none⟩]).1 0 (by decide)
      "timeout" rfl
  · exact (read_failure_downgrade envVarFail [⟨2, 1, some 7⟩]).2.1 0 (by decide)
      7 "network down" rfl rfl
  · exact (read_failure_downgrade envVarFail [⟨2, 1, some 7⟩]).2.2 0 (by decide)
      instockProduct rfl

/-- If phase 1 reported no error, every line item it walked was resolved into
the map. -/
theorem phase1_nil_errors_mapGet :
    ∀ (rs : List (LineItem × Fetch)) (m : PMap),
      (phase1 rs m).1 = [] →
      ∀ item f, (item, f) ∈ rs →
        (mapGet (phase1 rs m).2 item.product_id).isSome := by
  intro rs
  induction rs with
  | nil => intro m _ item f h; simp at h
  | cons hd rest ih =>
    intro m hnil item f h
    obtain ⟨it, f2⟩ := hd
    cases f2 with
    | fail msg => exact absurd hnil (by simp [phase1])
    | notFound => exact absurd hnil (by simp [phase1])
    | found P =>
      rcases List.mem_cons.mp h with heq | hmem
      · cases heq
        exact phase1_map_mono rest _ item.product_id
          (by rw [mapGet_mapSet_self]; rfl)
      · exact ih _ hnil item f hmem

/-- When every line item's product is resolved, the snapshot loop skips
nothing: it emits exactly one snapshot item per line item. -/
theorem snapshotLoop_length :
    ∀ (items : List LineItem) (m : PMap) (acc : Dy),
      (∀ item ∈ items, (mapGet m item.product_id).isSome) →
      (snapshotLoop m items acc).1.length = items.length := by
  intro items
  induction items with
  | nil => intro m acc _; rfl
  | cons item rest ih =>
    intro m acc hall
    have hhead := hall item (List.mem_cons_self _ _)
    obtain ⟨pd, hpd⟩ := Option.isSome_iff_exists.mp hhead
    have hrest : ∀ it ∈ rest, (mapGet m it.product_id).isSome :=
      fun it hit => hall it (List.mem_cons_of_mem _ hit)
    simp [snapshotLoop, hpd, ih m _ hrest]

/-- C9 — snapshot completeness: when validation reports no error, every line
item's `product_id` is a key of the resolved map, so the skip branch of
`createPriceSnapshot` is unreachable and the snapshot carries exactly one
item per submitted line item. -/
theorem snapshot_completeness (env : CheckoutEnv) (items : List LineItem)
    (requestId : String) (h : (runValidation env items).1 = []) :
    (∀ item ∈ items, (mapGet (runValidation env items).2 item.product_id).isSome)
    ∧ (createPriceSnapshot (runValidation env items).2 items
        requestId).items.length = items.length := by
  have h1 : (phase1 (productResults env.productFetch items) []).1 = [] := by
    have := h
    rw [runValidation] at this
    exact (List.append_eq_nil.mp ((List.append_eq_nil.mp this).1)).1
  have hall : ∀ item ∈ items,
      (mapGet (runValidation env items).2 item.product_id).isSome := by
    intro item hitem
    obtain ⟨⟨i, hi⟩, rfl⟩ := List.mem_iff_get.mp hitem
    rw [runValidation_snd]
    exact phase1_nil_errors_mapGet _ [] h1 _ (env.productFetch i)
      (mem_productResults env.productFetch items i hi)
  exact ⟨hall, snapshotLoop_length items _ ⟨0, 0⟩ hall⟩

/-- Witness for C9: a clean one-item cart resolves its product and the
snapshot has exactly one item. -/
theorem snapshot_completeness_witness :
    (createPriceSnapshot (runValidation envDup [⟨1, 2, none⟩]).2 [⟨1, 2, none⟩]
      "req").items.length = 1 :=
  (snapshot_completeness envDup [⟨1, 2, none⟩] "req" (by decide)).2

/-- Modelled from the spec's words, for comparison with the code's
`total_price`: `unit_price * quantity` computed in exact fixed-point decimal
arithmetic and rounded to 2 decimal places (ties upward, the same tie rule
`toFixed` itself uses), as integer cents. -/
def fixedPointTotalCents (price : Dec) (quantity : Nat) : Int :=
  ratRoundHalfUp (price.m * quantity * 100) (10 ^ price.s)

/-- A product priced `"19.99"`. -/
def prod1999 : WooCommerceProduct := ⟨⟨1999, 2⟩, "A", true, "instock", none⟩

/-- A product priced `"5.00"`. -/
def prod500 : WooCommerceProduct := ⟨⟨500, 2⟩, "B", true, "instock", none⟩

/-- The resolved map for the spec's snapshot example: product 1 priced
`"19.99"` with quantity 2, product 2 priced `"5.00"` with quantity 3. -/
def snapMapC4 : PMap := [(1, ⟨prod1999, 2, "A"⟩), (2, ⟨prod500, 3, "B"⟩)]

/-- A product priced `"1.015"` (a three-decimal price string). -/
def prod1015 : WooCommerceProduct := ⟨⟨1015, 3⟩, "Edge", true, "instock", none⟩

/-- A resolved map holding the `"1.015"` product with quantity 1. -/
def snapMap1015 : PMap := [(1, ⟨prod1015, 1, "Edge"⟩)]

/-- C4 counterexample — `createPriceSnapshot` does not compute in fixed-point
decimal: for unit price `"1.015"` and quantity 1 the code computes
`parseFloat("1.015") * 1` in binary64 (a hair below 1.015) and
`toFixed(2)` yields `"1.01"` (101 cents), while exact fixed-point decimal
arithmetic rounded to 2 decimals yields `"1.02"` (102 cents). -/
theorem snapshot_fixed_point_cex :
    (createPriceSnapshot snapMap1015 [⟨1, 1, none⟩] "req").items.map
      (fun it => it.total_price_cents) = [101]
    ∧ fixedPointTotalCents ⟨1015, 3⟩ 1 = 102
    ∧ (createPriceSnapshot snapMap1015 [⟨1, 1, none⟩] "req").items.map
        (fun it => it.total_price_cents) ≠ [fixedPointTotalCents ⟨1015, 3⟩ 1] := by
  refine ⟨by decide, by decide, by decide⟩

/-- C4 amended — `createPriceSnapshot` computes each `total_price` as
`parseFloat(unit_price) * quantity` in IEEE-754 binary64 floating point and
the subtotal as the left-to-right binary64 sum, both formatted to 2 decimals
by `toFixed(2)` — not in fixed-point decimal arithmetic.  On the spec's
example — products priced `"19.99"` and `"5.00"` with quantities 2 and 3 —
the binary64 computation agrees with fixed-point decimal: each line total
matches the fixed-point value and the subtotal is exactly `"54.98"`. -/
theorem snapshot_subtotal_example :
    (createPriceSnapshot snapMapC4 [⟨1, 2, none⟩, ⟨2, 3, none⟩]
      "req").subtotal_cents = 5498
    ∧ centsToString
        (createPriceSnapshot snapMapC4 [⟨1, 2, none⟩, ⟨2, 3, none⟩]
          "req").subtotal_cents = "54.98"
    ∧ (createPriceSnapshot snapMapC4 [⟨1, 2, none⟩, ⟨2, 3, none⟩]
        "req").items.map (fun it => it.total_price_cents) =
      [fixedPointTotalCents ⟨1999, 2⟩ 2, fixedPointTotalCents ⟨500, 2⟩ 3] := by
  refine ⟨by decide, by decide, by decide⟩

/-- C10 — status-history round-trip: deserializing a serialized history list
returns the list unchanged, and `deserializeStatusHistory` returns `[]` (it
never throws; it is total) on `null`/`undefined`, the empty string, malformed
JSON, and any well-formed JSON value that is not an array. -/
theorem deserialize_serialize_statusHistory :
    (∀ h : List OrderStatusHistoryEntry,
      deserializeStatusHistory (some (serializeStatusHistory h)) = h)
    ∧ deserializeStatusHistory none = []
    ∧ deserializeStatusHistory (some JsonText.empty) = []
    ∧ deserializeStatusHistory (some JsonText.malformed) = []
    ∧ (∀ j : Json, (∀ elems, j ≠ Json.arr elems) →
        deserializeStatusHistory (some (JsonText.wellFormed j)) = []) := by
  refine ⟨?_, rfl, rfl, rfl, ?_⟩
  · intro h
    simp only [serializeStatusHistory, deserializeStatusHistory, List.map_map]
    simp [Function.comp_def, decodeEntry_encodeEntry]
  · intro j hj
    cases j with
    | arr elems => exact absurd rfl (hj elems)
    | null => rfl
    | bool b => rfl
    | num n => rfl
    | str s => rfl
    | obj members => rfl

/-- Witness for C10: the round trip at a concrete one-entry history, and
`[]` on a concrete non-array JSON value. -/
theorem deserialize_serialize_statusHistory_witness :
    deserializeStatusHistory (some (serializeStatusHistory
      [{ timestamp := "2026-01-01T00:00:00.000Z", fromStatus := none,
         toStatus := .pending,
         reason := "Order created - awaiting bank transfer payment",
         actor := .customer }])) =
      [{ timestamp := "2026-01-01T00:00:00.000Z", fromStatus := none,
         toStatus := .pending,
         reason := "Order created - awaiting bank transfer payment",
         actor := .customer }]
    ∧ deserializeStatusHistory (some (JsonText.wellFormed (Json.num 0))) = [] :=
  ⟨deserialize_serialize_statusHistory.1 _,
   deserialize_serialize_statusHistory.2.2.2.2 (Json.num 0) (fun elems h => by
     exact absurd h (by simp))⟩

/-- C2 — `isValidStatusTransition` realizes exactly the spec's transition table:
pending→{paid, failed, cancelled}, paid→{fulfilled, refunded, cancelled},
failed→{cancelled}, cancelled→{refunded}, fulfilled→{completed, refunded};
`refunded` and `completed` are absorbing (no transition out of them is valid);
in particular pending→fulfilled is rejected and pending→paid is accepted. -/
theorem isValidStatusTransition_spec :
    (∀ f t : OrderStatus, isValidStatusTransition f t = true ↔
      (f, t) ∈ ([(pending, paid), (pending, failed), (pending, cancelled),
        (paid, fulfilled), (paid, refunded), (paid, cancelled),
        (failed, cancelled),
        (cancelled, refunded),
        (fulfilled, completed), (fulfilled, refunded)] : List (OrderStatus × OrderStatus)))
    ∧ (∀ s : OrderStatus, isValidStatusTransition refunded s = false
        ∧ isValidStatusTransition completed s = false)
    ∧ isValidStatusTransition pending fulfilled = false
    ∧ isValidStatusTransition pending paid = true := by
  refine ⟨?_, ?_, ?_, ?_⟩ <;> decide

end KyriakosShop
